import Mathlib

/-!
Shallow embedding of the library GraphQL backend (src/index.js): the document
store (Author / Book / User collections), the per-request context construction
with bearer-token verification, and the resolver functions
(me, allBooks, allAuthors, addBook, editAuthor, createUser, login).

Conventions of the embedding:
  * Mongo documents become Lean structures; an ObjectId is a Nat.  The store
    assigns fresh ids from a counter on save.
  * A Mongoose query result is a List; findOne is List.find?.
  * A Book stores its author reference as an id; populate resolves it to the
    Author document, or none when dangling.
  * A thrown GraphQLError is an error value of type Err; a JavaScript member
    access on null is the error value Err.jsTypeError.  A mutation returns
    the store as it stands when the error is thrown: saves performed before
    the throw persist (the code has no transactions).
  * jwt.sign and jwt.verify are modelled by pairing a payload with the secret
    it was signed with; verification succeeds exactly when the secrets match.
-/

/-- A document of the authors collection. -/
structure Author where
  id : Nat
  name : String
  born : Option Int
deriving Repr, DecidableEq

/-- A document of the books collection; author holds the referenced Author id. -/
structure Book where
  id : Nat
  title : String
  published : Int
  authorId : Nat
  genres : List String
deriving Repr, DecidableEq

/-- A document of the users collection. -/
structure User where
  id : Nat
  username : String
  favoriteGenre : String
deriving Repr, DecidableEq

/-- The whole document store, with the counter supplying fresh ids. -/
structure Store where
  authors : List Author
  books : List Book
  users : List User
  nextId : Nat
deriving Repr, DecidableEq

/-- Invariants the spec states for the store: author names are unique, ids are
unique, and every Book references an existing Author. -/
def storeWf (st : Store) : Prop :=
  (st.authors.map Author.name).Nodup ∧
  (st.authors.map Author.id).Nodup ∧
  ∀ b ∈ st.books, ∃ a ∈ st.authors, a.id = b.authorId

instance (st : Store) : Decidable (storeWf st) := by
  unfold storeWf; infer_instance

/-- Mongoose `Author.findOne (\x7b name \x7d)`. -/
def authorFindOne (st : Store) (n : String) : Option Author :=
  st.authors.find? (fun a => a.name = n)

/-- Mongoose `User.findOne (\x7b username \x7d)`. -/
def userFindOne (st : Store) (n : String) : Option User :=
  st.users.find? (fun u => u.username = n)

/-- Mongoose `User.findById`. -/
def userFindById (st : Store) (i : Nat) : Option User :=
  st.users.find? (fun u => u.id = i)

/-- Mongoose `Author.findById`, used by populate to resolve a Book author reference. -/
def authorById (st : Store) (i : Nat) : Option Author :=
  st.authors.find? (fun a => a.id = i)

/-- The payload `\x7b username, id \x7d` the login mutation signs. -/
structure TokenPayload where
  username : String
  id : Nat
deriving Repr, DecidableEq

/-- A signed jwt: the payload together with the secret used to sign it. -/
structure SignedToken where
  payload : TokenPayload
  secret : String
deriving Repr, DecidableEq

/-- The call `jwt.sign(payload, secret)`. -/
def jwtSign (p : TokenPayload) (s : String) : SignedToken := ⟨p, s⟩

/-- The call `jwt.verify(token, secret)`: returns the payload when the token was signed
with this secret, and none (modelling the thrown JsonWebTokenError) otherwise. -/
def jwtVerify (t : SignedToken) (s : String) : Option TokenPayload :=
  if t.secret = s then some t.payload else none

/-- The errors a resolver call or context construction can surface.
graphQLError carries the message and the extensions.code of the thrown
GraphQLError; jsTypeError models a JavaScript member access on null;
jwtVerifyFailure models the exception jwt.verify throws on a bad token. -/
inductive Err where
  | graphQLError (message : String) (code : String)
  | jsTypeError
  | jwtVerifyFailure
deriving Repr, DecidableEq

/-- The context value built per request, when it is an object at all:
`\x7b currentUser \x7d` where currentUser may be null (User.findById miss). -/
structure Context where
  currentUser : Option User
deriving Repr, DecidableEq

/-- The Authorization header of a request, as context construction case-splits
on it: absent (or an empty string, both falsy), a value not starting with the
literal prefix "Bearer ", "Bearer " followed by a well-formed signed token, or
"Bearer " followed by bytes that are not a token at all (jwt.verify throws on
those exactly as on a wrong-secret token). -/
inductive AuthHeader where
  | noHeader
  | otherScheme (s : String)
  | bearerToken (t : SignedToken)
  | bearerGarbage (s : String)
deriving Repr, DecidableEq

/-- The context function passed to startStandaloneServer: on a Bearer header it
verifies the token (an exception propagates, aborting the request) and attaches
the user found by the embedded id; otherwise it returns null (none), not an
object. -/
def makeContext (st : Store) (secret : String) (h : AuthHeader) :
    Except Err (Option Context) :=
  match h with
  | .bearerToken t =>
    match jwtVerify t secret with
    | some payload => .ok (some ⟨userFindById st payload.id⟩)
    | none => .error .jwtVerifyFailure
  | .bearerGarbage _ => .error .jwtVerifyFailure
  | .noHeader => .ok none
  | .otherScheme _ => .ok none

/-- Reading context.currentUser in a resolver: a TypeError on a null context. -/
def readCurrentUser (ctx : Option Context) : Except Err (Option User) :=
  match ctx with
  | none => .error .jsTypeError
  | some c => .ok c.currentUser

/-- The me resolver: `(_root, _args, context) => context.currentUser`. -/
def me (ctx : Option Context) : Except Err (Option User) :=
  readCurrentUser ctx

/-- The me query end to end: context construction, then the me resolver. -/
def meRequest (st : Store) (secret : String) (h : AuthHeader) :
    Except Err (Option User) :=
  match makeContext st secret h with
  | .error e => .error e
  | .ok ctx => me ctx

/-- A Book with its author reference populated (`populate` resolves the
reference to the full Author document, or null when it dangles). -/
structure PopulatedBook where
  id : Nat
  title : String
  published : Int
  author : Option Author
  genres : List String
deriving Repr, DecidableEq

/-- Mongoose populate of the author path of a Book. -/
def populateBook (st : Store) (b : Book) : PopulatedBook :=
  ⟨b.id, b.title, b.published, authorById st b.authorId, b.genres⟩

/-- The arguments of allBooks; a GraphQL String argument is either absent
(undefined) or a string value. -/
structure AllBooksArgs where
  author : Option String
  genre : Option String
deriving Repr, DecidableEq

/-- JavaScript truthiness of a string-or-undefined value, as tested by
`if (args.author)`: undefined and the empty string are falsy. -/
def jsTruthy : Option String → Bool
  | none => false
  | some s => s ≠ ""

/-- The string value of an argument (meaningful on the truthy branches). -/
def argStr (a : Option String) : String := a.getD ""

/-- The query `Book.find (\x7b author \x7d)` where author is the result of
Author.findOne: Mongoose casts the document to its id; querying with a null
author matches Books whose author field is null or missing, and every stored
Book carries an author id, so it matches none. -/
def bookMatchesAuthor (a : Option Author) (b : Book) : Bool :=
  match a with
  | none => false
  | some a => b.authorId = a.id

/-- The condition `genres: \x7b $all: [g] \x7d`: the genres array contains g. -/
def bookHasGenre (g : String) (b : Book) : Bool :=
  b.genres.contains g

/-- The allBooks resolver (the single-use author binding of the source is
inlined). -/
def allBooks (st : Store) (args : AllBooksArgs) : List PopulatedBook :=
  if jsTruthy args.author && jsTruthy args.genre then
    (st.books.filter (fun b =>
      bookMatchesAuthor (authorFindOne st (argStr args.author)) b &&
      bookHasGenre (argStr args.genre) b)).map (populateBook st)
  else if jsTruthy args.author then
    (st.books.filter (bookMatchesAuthor (authorFindOne st (argStr args.author)))).map
      (populateBook st)
  else if jsTruthy args.genre then
    (st.books.filter (bookHasGenre (argStr args.genre))).map (populateBook st)
  else
    st.books.map (populateBook st)

/-- The response shape of allAuthors: id, name, born and the derived
bookCount. -/
structure AuthorView where
  id : Nat
  name : String
  born : Option Int
  bookCount : Nat
deriving Repr, DecidableEq

/-- The allAuthors resolver: every Author, with bookCount the length of
`Book.find (\x7b author \x7d)` for that author. -/
def allAuthors (st : Store) : List AuthorView :=
  st.authors.map (fun a =>
    ⟨a.id, a.name, a.born,
      (st.books.filter (fun b => bookMatchesAuthor (some a) b)).length⟩)

/-- The arguments of the addBook mutation. -/
structure AddBookArgs where
  title : String
  author : String
  published : Int
  genres : List String
deriving Repr, DecidableEq

/-- The tail of addBook once the author is resolved (found or just created):
validate the title length, then create and save the Book and return it
populated. -/
def addBookWithAuthor (args : AddBookArgs) (st : Store) (author : Author) :
    Store × Except Err PopulatedBook :=
  if args.title.length < 5 then
    (st, .error (.graphQLError
      "Book\x27s title should be at least 5 characters long." "BAD_USER_INPUT"))
  else
    let b : Book := ⟨st.nextId, args.title, args.published, author.id, args.genres⟩
    let st2 : Store := { st with books := st.books ++ [b], nextId := st.nextId + 1 }
    (st2, .ok (populateBook st2 b))

/-- The addBook mutation.  Returns the store as left by the call (saves
performed before a throw persist) together with the result or error. -/
def addBook (ctx : Option Context) (args : AddBookArgs) (st : Store) :
    Store × Except Err PopulatedBook :=
  match ctx with
  | none => (st, .error .jsTypeError)
  | some c =>
    if c.currentUser.isNone then
      (st, .error (.graphQLError "Invalid token." "BAD_USER_INPUT"))
    else
      match authorFindOne st args.author with
      | some author => addBookWithAuthor args st author
      | none =>
        if args.author.length < 4 then
          (st, .error (.graphQLError
            "Author\x27s name should be at least 4 characters long."
            "BAD_USER_INPUT"))
        else
          let a : Author := ⟨st.nextId, args.author, none⟩
          let st1 : Store :=
            { st with authors := st.authors ++ [a], nextId := st.nextId + 1 }
          addBookWithAuthor args st1 a

/-- The arguments of the editAuthor mutation. -/
structure EditAuthorArgs where
  name : String
  setBornTo : Int
deriving Repr, DecidableEq

/-- The editAuthor mutation: authentication check, lookup by name, then set
born and save (the saved document replaces the stored one with the same id). -/
def editAuthor (ctx : Option Context) (args : EditAuthorArgs) (st : Store) :
    Store × Except Err Author :=
  match ctx with
  | none => (st, .error .jsTypeError)
  | some c =>
    if c.currentUser.isNone then
      (st, .error (.graphQLError "Invalid token." "BAD_USER_INPUT"))
    else
      match authorFindOne st args.name with
      | none =>
        (st, .error (.graphQLError "The user does not exist." "BAD_USER_INPUT"))
      | some author =>
        let updated : Author := { author with born := some args.setBornTo }
        ({ st with authors :=
            st.authors.map (fun x => if x.id = author.id then updated else x) },
         .ok updated)

/-- The arguments of the createUser mutation. -/
structure CreateUserArgs where
  username : String
  favoriteGenre : String
deriving Repr, DecidableEq

/-- The createUser mutation.  `user.save()` is code of this repository outside
src (models/User.js); its failure condition is
Modelled from the spec: persistence fails on a duplicate username (the unique
username constraint), and the resolver wraps the rejection in a validation
GraphQLError. -/
def createUser (args : CreateUserArgs) (st : Store) :
    Store × Except Err User :=
  if st.users.any (fun u => u.username = args.username) then
    (st, .error (.graphQLError "User creation failed." "BAD_USER_INPUT"))
  else
    let u : User := ⟨st.nextId, args.username, args.favoriteGenre⟩
    ({ st with users := st.users ++ [u], nextId := st.nextId + 1 }, .ok u)

/-- The arguments of the login mutation. -/
structure LoginArgs where
  username : String
  password : String
deriving Repr, DecidableEq

/-- The login mutation: look up the user; unless the user exists and the
password is the hardcoded string, throw; otherwise sign a token over
`\x7b username, id \x7d` with the server secret.  Reads only, so the store is
returned unchanged. -/
def login (args : LoginArgs) (st : Store) (secret : String) :
    Store × Except Err SignedToken :=
  match userFindOne st args.username with
  | none => (st, .error (.graphQLError "Wrong credentials." "BAD_USER_INPUT"))
  | some user =>
    if args.password ≠ "secret" then
      (st, .error (.graphQLError "Wrong credentials." "BAD_USER_INPUT"))
    else
      (st, .ok (jwtSign ⟨user.username, user.id⟩ secret))

/-- Whether a resolver result is an error (a thrown GraphQLError or a
JavaScript error). -/
def resultIsError {α : Type} : Except Err α → Bool
  | .error _ => true
  | .ok _ => false

/-- Whether a resolver result is a thrown GraphQLError with extensions code
BAD_USER_INPUT (the code used for both validation and authorization errors). -/
def isBadUserInput {α : Type} : Except Err α → Bool
  | .error (.graphQLError _ "BAD_USER_INPUT") => true
  | _ => false

/-- Whether a context carries an authenticated current user. -/
def contextHasUser : Option Context → Bool
  | none => false
  | some c => c.currentUser.isSome

/-- Whether the Authorization header starts with the literal "Bearer " prefix
(7 characters). -/
def startsWithBearer : AuthHeader → Bool
  | .bearerToken _ => true
  | .bearerGarbage _ => true
  | .noHeader => false
  | .otherScheme _ => false

/-- Spec-side predicate: the Book's author reference resolves to an Author
document named n. -/
def bookAuthorNamed (st : Store) (n : String) (b : Book) : Bool :=
  match authorById st b.authorId with
  | some a => a.name = n
  | none => false

/-! ### Helper lemmas about lookups in a well-formed store -/

theorem find?_author_name_eq_some {st : Store}
    (hn : (st.authors.map Author.name).Nodup)
    {a : Author} {n : String} (ha : a ∈ st.authors) (hname : a.name = n) :
    authorFindOne st n = some a := by
  have hsome : (st.authors.find? (fun x => x.name = n)).isSome = true := by
    rw [List.find?_isSome]
    exact ⟨a, ha, by simp [hname]⟩
  obtain ⟨x, hx⟩ := Option.isSome_iff_exists.mp hsome
  have hxn : x.name = n := by simpa using List.find?_some hx
  have hxm : x ∈ st.authors := List.mem_of_find?_eq_some hx
  have hxa : x = a := List.inj_on_of_nodup_map hn hxm ha (by rw [hxn, hname])
  show st.authors.find? (fun x => x.name = n) = some a
  rw [hx, hxa]

theorem find?_author_id_eq_some {st : Store}
    (hi : (st.authors.map Author.id).Nodup)
    {a : Author} {i : Nat} (ha : a ∈ st.authors) (hid : a.id = i) :
    authorById st i = some a := by
  have hsome : (st.authors.find? (fun x => x.id = i)).isSome = true := by
    rw [List.find?_isSome]
    exact ⟨a, ha, by simp [hid]⟩
  obtain ⟨x, hx⟩ := Option.isSome_iff_exists.mp hsome
  have hxn : x.id = i := by simpa using List.find?_some hx
  have hxm : x ∈ st.authors := List.mem_of_find?_eq_some hx
  have hxa : x = a := List.inj_on_of_nodup_map hi hxm ha (by rw [hxn, hid])
  show st.authors.find? (fun x => x.id = i) = some a
  rw [hx, hxa]

theorem bookMatchesAuthor_findOne_eq (st : Store)
    (hn : (st.authors.map Author.name).Nodup)
    (hi : (st.authors.map Author.id).Nodup) (n : String) (b : Book) :
    bookMatchesAuthor (authorFindOne st n) b = bookAuthorNamed st n b := by
  rcases hf : authorFindOne st n with _ | au
  · rcases hb : authorById st b.authorId with _ | x
    · simp [bookMatchesAuthor, bookAuthorNamed, hb]
    · have hxm : x ∈ st.authors := List.mem_of_find?_eq_some hb
      have hxn : ¬(x.name = n) := by
        have := List.find?_eq_none.mp hf x hxm
        simpa using this
      simp [bookMatchesAuthor, bookAuthorNamed, hb, hxn]
  · have ham : au ∈ st.authors := List.mem_of_find?_eq_some hf
    have han : au.name = n := by simpa using List.find?_some hf
    rcases hb : authorById st b.authorId with _ | x
    · have hne : ¬(au.id = b.authorId) := by
        have := List.find?_eq_none.mp hb au ham
        simpa using this
      simp only [bookMatchesAuthor, bookAuthorNamed, hb]
      simp only [decide_eq_false_iff_not]
      exact fun h => hne h.symm
    · have hxm : x ∈ st.authors := List.mem_of_find?_eq_some hb
      have hxi : x.id = b.authorId := by simpa using List.find?_some hb
      by_cases hba : b.authorId = au.id
      · have hxa : x = au := List.inj_on_of_nodup_map hi hxm ham (by rw [hxi, hba])
        simp only [bookMatchesAuthor, bookAuthorNamed, hb]
        simp [hba, hxa, han]
      · have hxn : ¬(x.name = n) := by
          intro hh
          have hxa : x = au := List.inj_on_of_nodup_map hn hxm ham (by rw [hh, han])
          exact hba (by rw [← hxi, hxa])
        simp [bookMatchesAuthor, bookAuthorNamed, hb, hba, hxn]

theorem mem_allBooks (st : Store) (args : AllBooksArgs) (pb : PopulatedBook)
    (h : pb ∈ allBooks st args) : ∃ b ∈ st.books, pb = populateBook st b := by
  unfold allBooks at h
  split at h
  · rcases List.mem_map.mp h with ⟨b, hb, rfl⟩
    exact ⟨b, List.mem_of_mem_filter hb, rfl⟩
  · split at h
    · rcases List.mem_map.mp h with ⟨b, hb, rfl⟩
      exact ⟨b, List.mem_of_mem_filter hb, rfl⟩
    · split at h
      · rcases List.mem_map.mp h with ⟨b, hb, rfl⟩
        exact ⟨b, List.mem_of_mem_filter hb, rfl⟩
      · rcases List.mem_map.mp h with ⟨b, hb, rfl⟩
        exact ⟨b, hb, rfl⟩

theorem populateBook_resolves (st : Store)
    (hrefs : ∀ b ∈ st.books, ∃ a ∈ st.authors, a.id = b.authorId)
    (b : Book) (hb : b ∈ st.books) :
    ∃ a ∈ st.authors, (populateBook st b).author = some a := by
  obtain ⟨a, ha, hid⟩ := hrefs b hb
  have hsome : (st.authors.find? (fun x => x.id = b.authorId)).isSome = true := by
    rw [List.find?_isSome]
    exact ⟨a, ha, by simp [hid]⟩
  obtain ⟨x, hx⟩ := Option.isSome_iff_exists.mp hsome
  refine ⟨x, List.mem_of_find?_eq_some hx, ?_⟩
  show authorById st b.authorId = some x
  exact hx

/-! ### The claims -/

/-- C7: every authenticated addBook call whose author argument names no
existing Author and has length < 4 fails with a validation error
(BAD_USER_INPUT) and leaves the store unchanged: no Author and no Book is
persisted. -/
theorem addBook_shortNewAuthor_rejected (c : Context) (u : User)
    (hc : c.currentUser = some u) (args : AddBookArgs) (st : Store)
    (habs : authorFindOne st args.author = none)
    (hlen : args.author.length < 4) :
    (addBook (some c) args st).1 = st ∧
    (addBook (some c) args st).2 = .error (.graphQLError
      "Author\x27s name should be at least 4 characters long."
      "BAD_USER_INPUT") := by
  simp [addBook, hc, habs, hlen]

/-- C7 witness: a concrete authenticated call with the unseen three-letter
author name Bob and a long enough title is rejected and persists nothing. -/
theorem addBook_shortNewAuthor_rejected_witness :
    (addBook (some ⟨some ⟨1, "bob", "sf"⟩⟩) ⟨"Clean Code", "Bob", 2008, ["x"]⟩
      ⟨[], [], [], 7⟩).1 = ⟨[], [], [], 7⟩ ∧
    (addBook (some ⟨some ⟨1, "bob", "sf"⟩⟩) ⟨"Clean Code", "Bob", 2008, ["x"]⟩
      ⟨[], [], [], 7⟩).2 = .error (.graphQLError
      "Author\x27s name should be at least 4 characters long."
      "BAD_USER_INPUT") :=
  addBook_shortNewAuthor_rejected ⟨some ⟨1, "bob", "sf"⟩⟩ ⟨1, "bob", "sf"⟩ rfl
    ⟨"Clean Code", "Bob", 2008, ["x"]⟩ ⟨[], [], [], 7⟩ rfl (by decide)

/-- C2 counterexample: addBook invoked on the null context produced for an
unauthenticated request (no Authorization header) fails with a JavaScript
TypeError, not with a GraphQL BAD_USER_INPUT error, so the claim that every
unauthenticated addBook call fails with code BAD_USER_INPUT is false. -/
theorem addBook_nullContext_cex :
    (addBook none ⟨"Clean Code", "Robert Martin", 2008, ["software"]⟩
      ⟨[], [], [], 0⟩).2 = .error .jsTypeError ∧
    isBadUserInput (addBook none ⟨"Clean Code", "Robert Martin", 2008, ["software"]⟩
      ⟨[], [], [], 0⟩).2 = false := by
  exact ⟨rfl, rfl⟩

/-- C2 (amended): every addBook call whose request context carries no
authenticated current user fails and persists nothing; the failure is a
TypeError when the context is null (no valid bearer token was presented) and a
BAD_USER_INPUT GraphQL error when the context object has a null currentUser. -/
theorem addBook_unauthenticated_fails (ctx : Option Context)
    (args : AddBookArgs) (st : Store) (h : contextHasUser ctx = false) :
    (addBook ctx args st).1 = st ∧
    (addBook ctx args st).2 = (match ctx with
      | none => .error .jsTypeError
      | some _ => .error (.graphQLError "Invalid token." "BAD_USER_INPUT")) := by
  match ctx with
  | none => exact ⟨rfl, rfl⟩
  | some c =>
    have hu : c.currentUser.isNone = true := by
      simpa [contextHasUser, Option.isNone_iff_eq_none,
        Option.isSome_iff_exists] using h
    simp [addBook, hu]

/-- C2 witness: a concrete call on a context object whose currentUser is null
leaves the store unchanged and yields the BAD_USER_INPUT error. -/
theorem addBook_unauthenticated_fails_witness :
    (addBook (some ⟨none⟩) ⟨"Clean Code", "Robert Martin", 2008, ["software"]⟩
      ⟨[], [], [], 0⟩).1 = ⟨[], [], [], 0⟩ ∧
    (addBook (some ⟨none⟩) ⟨"Clean Code", "Robert Martin", 2008, ["software"]⟩
      ⟨[], [], [], 0⟩).2 =
      .error (.graphQLError "Invalid token." "BAD_USER_INPUT") :=
  addBook_unauthenticated_fails (some ⟨none⟩)
    ⟨"Clean Code", "Robert Martin", 2008, ["software"]⟩ ⟨[], [], [], 0⟩ rfl

/-- C9: for a request whose Authorization header is absent or does not start
with the literal prefix Bearer-space, context construction returns null (not
an object lacking a currentUser field), and consequently the resolvers that
read context.currentUser (me, addBook, editAuthor) hit a member access on null
(a TypeError) on such requests. -/
theorem nonBearer_context_is_null (st : Store) (secret : String)
    (h : AuthHeader) (hh : startsWithBearer h = false) :
    makeContext st secret h = .ok none ∧
    me none = .error .jsTypeError ∧
    (∀ args st2, (addBook none args st2).2 = .error .jsTypeError) ∧
    (∀ args st2, (editAuthor none args st2).2 = .error .jsTypeError) := by
  refine ⟨?_, rfl, fun _ _ => rfl, fun _ _ => rfl⟩
  cases h <;> simp_all [startsWithBearer, makeContext]

/-- C9 witness: the concrete facts at an absent header and the empty store. -/
theorem nonBearer_context_is_null_witness :
    makeContext ⟨[], [], [], 0⟩ "sec" .noHeader = .ok none ∧
    me none = .error .jsTypeError ∧
    (∀ args st2, (addBook none args st2).2 = .error .jsTypeError) ∧
    (∀ args st2, (editAuthor none args st2).2 = .error .jsTypeError) :=
  nonBearer_context_is_null ⟨[], [], [], 0⟩ "sec" .noHeader rfl

/-- C10: allBooks treats an empty-string filter argument exactly like an
absent one, because each branch tests JavaScript truthiness of the argument
rather than its presence. -/
theorem allBooks_emptyString_filters (st : Store) (a g : Option String) :
    allBooks st ⟨some "", g⟩ = allBooks st ⟨none, g⟩ ∧
    allBooks st ⟨a, some ""⟩ = allBooks st ⟨a, none⟩ := by
  have h0 : jsTruthy (some "") = false := rfl
  have h1 : jsTruthy none = false := rfl
  constructor <;> simp [allBooks, h0, h1]

/-- C3 counterexample: with no Authorization header the me query does not
return null; the resolver throws a TypeError reading currentUser of the null
context, so the request errors instead of cleanly reporting no user. -/
theorem me_noHeader_cex :
    meRequest ⟨[], [], [], 0⟩ "sec" .noHeader = .error .jsTypeError ∧
    meRequest ⟨[], [], [], 0⟩ "sec" .noHeader ≠ .ok none := by
  refine ⟨rfl, ?_⟩
  simp [meRequest, makeContext, me, readCurrentUser]

/-- C3 (amended): with a valid bearer token the me query returns the user
looked up by the id embedded in the token (null when no user has that id);
with no header or a non-Bearer header the resolver throws a TypeError on the
null context; with a Bearer token failing verification the request aborts
during context construction with the verification exception. -/
theorem meRequest_behavior (st : Store) (secret : String) (h : AuthHeader) :
    meRequest st secret h =
      match h with
      | .noHeader => .error .jsTypeError
      | .otherScheme _ => .error .jsTypeError
      | .bearerGarbage _ => .error .jwtVerifyFailure
      | .bearerToken t =>
        if t.secret = secret then .ok (userFindById st t.payload.id)
        else .error .jwtVerifyFailure := by
  cases h with
  | noHeader => rfl
  | otherScheme s => rfl
  | bearerGarbage s => rfl
  | bearerToken t =>
    by_cases hs : t.secret = secret <;>
      simp [meRequest, makeContext, jwtVerify, me, readCurrentUser, hs]

/-- C6: login never writes to the store; it succeeds with a token verifiable
against the server secret iff a user with the given username exists and the
password equals the single fixed accepted value; in every other case it fails
with the wrong-credentials BAD_USER_INPUT error and issues no token. -/
theorem login_iff_valid_credentials (st : Store) (secret : String)
    (args : LoginArgs) :
    (login args st secret).1 = st ∧
    ((∃ t, (login args st secret).2 = .ok t ∧ (jwtVerify t secret).isSome = true)
      ↔ ((∃ u ∈ st.users, u.username = args.username) ∧
          args.password = "secret")) ∧
    (∀ e, (login args st secret).2 = .error e →
      e = .graphQLError "Wrong credentials." "BAD_USER_INPUT") := by
  rcases hf : userFindOne st args.username with _ | u
  · have hres : login args st secret =
        (st, .error (.graphQLError "Wrong credentials." "BAD_USER_INPUT")) := by
      simp [login, hf]
    refine ⟨by rw [hres], ?_, ?_⟩
    · rw [hres]
      constructor
      · rintro ⟨t, ht, -⟩
        simp at ht
      · rintro ⟨⟨u, hu, hn⟩, -⟩
        have := List.find?_eq_none.mp hf u hu
        simp [hn] at this
    · intro e he
      rw [hres] at he
      simp only [Except.error.injEq] at he
      exact he.symm
  · have hum : u ∈ st.users := List.mem_of_find?_eq_some hf
    have hun : u.username = args.username := by simpa using List.find?_some hf
    by_cases hp : args.password = "secret"
    · have hres : login args st secret =
          (st, .ok (jwtSign ⟨u.username, u.id⟩ secret)) := by
        simp [login, hf, hp]
      refine ⟨by rw [hres], ?_, ?_⟩
      · rw [hres]
        refine iff_of_true
          ⟨jwtSign ⟨u.username, u.id⟩ secret, rfl, by simp [jwtSign, jwtVerify]⟩
          ⟨⟨u, hum, hun⟩, hp⟩
      · intro e he
        rw [hres] at he
        simp at he
    · have hres : login args st secret =
          (st, .error (.graphQLError "Wrong credentials." "BAD_USER_INPUT")) := by
        simp [login, hf, hp]
      refine ⟨by rw [hres], ?_, ?_⟩
      · rw [hres]
        constructor
        · rintro ⟨t, ht, -⟩
          simp at ht
        · rintro ⟨-, hps⟩
          exact absurd hps hp
      · intro e he
        rw [hres] at he
        simp only [Except.error.injEq] at he
        exact he.symm

/-- C6 witness: on a store holding the user bob, login with the accepted
password yields a token that verifies against the server secret. -/
theorem login_iff_valid_credentials_witness :
    ∃ t, (login ⟨"bob", "secret"⟩ ⟨[], [], [⟨1, "bob", "sf"⟩], 2⟩ "sec").2 =
        .ok t ∧ (jwtVerify t "sec").isSome = true :=
  (login_iff_valid_credentials ⟨[], [], [⟨1, "bob", "sf"⟩], 2⟩ "sec"
      ⟨"bob", "secret"⟩).2.1.mpr ⟨⟨⟨1, "bob", "sf"⟩, by decide, rfl⟩, rfl⟩

/-- C1 counterexample: an authenticated addBook with the fresh author name
Robert and a four-character title throws the title validation error and yet
persists the new Author: the failing call does not leave the store as it was. -/
theorem failing_addBook_changes_store_cex :
    isBadUserInput (addBook (some ⟨some ⟨1, "bob", "sf"⟩⟩)
      ⟨"abc", "Robert", 2008, ["x"]⟩ ⟨[], [], [], 10⟩).2 = true ∧
    (addBook (some ⟨some ⟨1, "bob", "sf"⟩⟩)
      ⟨"abc", "Robert", 2008, ["x"]⟩ ⟨[], [], [], 10⟩).1 ≠ ⟨[], [], [], 10⟩ ∧
    (addBook (some ⟨some ⟨1, "bob", "sf"⟩⟩)
      ⟨"abc", "Robert", 2008, ["x"]⟩ ⟨[], [], [], 10⟩).1.authors =
      [⟨10, "Robert", none⟩] := by
  refine ⟨rfl, ?_, rfl⟩
  decide

/-- C1 (amended): a failing editAuthor, createUser or login call leaves the
store unchanged; a failing addBook call never persists a Book or a User, and
discriminating by the check that failed: an authorization failure (no
authenticated user) and an author-name validation failure both leave the
store unchanged, a title validation failure with an existing author leaves
the store unchanged, and a title validation failure after creating a missing
Author (authenticated, author absent, name length at least 4, title length
below 5) persists exactly that new Author. -/
theorem failingMutations_store_extent (ctx : Option Context) (st : Store) :
    (∀ args, resultIsError (editAuthor ctx args st).2 = true →
      (editAuthor ctx args st).1 = st) ∧
    (∀ args, resultIsError (createUser args st).2 = true →
      (createUser args st).1 = st) ∧
    (∀ args secret, resultIsError (login args st secret).2 = true →
      (login args st secret).1 = st) ∧
    (∀ args, resultIsError (addBook ctx args st).2 = true →
      (addBook ctx args st).1.books = st.books ∧
      (addBook ctx args st).1.users = st.users) ∧
    (∀ args, contextHasUser ctx = false →
      resultIsError (addBook ctx args st).2 = true ∧
      (addBook ctx args st).1 = st) ∧
    (∀ args, contextHasUser ctx = true →
      authorFindOne st args.author = none → args.author.length < 4 →
      (addBook ctx args st).2 = .error (.graphQLError
        "Author\x27s name should be at least 4 characters long."
        "BAD_USER_INPUT") ∧
      (addBook ctx args st).1 = st) ∧
    (∀ args a, contextHasUser ctx = true →
      authorFindOne st args.author = some a → args.title.length < 5 →
      (addBook ctx args st).2 = .error (.graphQLError
        "Book\x27s title should be at least 5 characters long."
        "BAD_USER_INPUT") ∧
      (addBook ctx args st).1 = st) ∧
    (∀ args, contextHasUser ctx = true →
      authorFindOne st args.author = none → 4 ≤ args.author.length →
      args.title.length < 5 →
      (addBook ctx args st).2 = .error (.graphQLError
        "Book\x27s title should be at least 5 characters long."
        "BAD_USER_INPUT") ∧
      (addBook ctx args st).1.authors =
        st.authors ++ [⟨st.nextId, args.author, none⟩] ∧
      (addBook ctx args st).1.books = st.books ∧
      (addBook ctx args st).1.users = st.users) := by
  refine ⟨?_, ?_, ?_, ?_, ?_, ?_, ?_, ?_⟩
  · intro args herr
    match ctx with
    | none => rfl
    | some c =>
      by_cases hu : c.currentUser.isNone = true
      · simp [editAuthor, hu]
      · rcases hfa : authorFindOne st args.name with _ | a
        · simp [editAuthor, hu, hfa]
        · simp [editAuthor, hu, hfa, resultIsError] at herr
  · intro args herr
    by_cases hdup : st.users.any (fun u => u.username = args.username) = true
    · simp [createUser, hdup]
    · simp [createUser, hdup, resultIsError] at herr
  · intro args secret herr
    rcases hf : userFindOne st args.username with _ | u
    · simp [login, hf]
    · by_cases hp : args.password = "secret" <;> simp [login, hf, hp]
  · intro args herr
    match ctx with
    | none => exact ⟨rfl, rfl⟩
    | some c =>
      by_cases hu : c.currentUser.isNone = true
      · simp [addBook, hu]
      · rcases hfa : authorFindOne st args.author with _ | a
        · by_cases hal : args.author.length < 4
          · simp [addBook, hu, hfa, hal]
          · by_cases htl : args.title.length < 5
            · constructor <;>
                simp [addBook, addBookWithAuthor, hu, hfa, hal, htl]
            · exfalso
              simp [addBook, addBookWithAuthor, hu, hfa, hal, htl,
                resultIsError] at herr
        · by_cases htl : args.title.length < 5
          · simp [addBook, addBookWithAuthor, hu, hfa, htl]
          · exfalso
            simp [addBook, addBookWithAuthor, hu, hfa, htl,
              resultIsError] at herr
  · intro args hno
    match ctx with
    | none => exact ⟨rfl, rfl⟩
    | some c =>
      have hu : c.currentUser.isNone = true := by
        simpa [contextHasUser, Option.isNone_iff_eq_none,
          Option.isSome_iff_exists] using hno
      constructor <;> simp [addBook, hu, resultIsError]
  · intro args hyes hfa hal
    match ctx with
    | none => simp [contextHasUser] at hyes
    | some c =>
      obtain ⟨u, hu⟩ := Option.isSome_iff_exists.mp
        (by simpa [contextHasUser] using hyes)
      constructor <;> simp [addBook, hu, hfa, hal]
  · intro args a hyes hfa htl
    match ctx with
    | none => simp [contextHasUser] at hyes
    | some c =>
      obtain ⟨u, hu⟩ := Option.isSome_iff_exists.mp
        (by simpa [contextHasUser] using hyes)
      constructor <;> simp [addBook, addBookWithAuthor, hu, hfa, htl]
  · intro args hyes hfa hge htl
    match ctx with
    | none => simp [contextHasUser] at hyes
    | some c =>
      obtain ⟨u, hu⟩ := Option.isSome_iff_exists.mp
        (by simpa [contextHasUser] using hyes)
      have hal : ¬(args.author.length < 4) := by omega
      refine ⟨?_, ?_, ?_, ?_⟩ <;>
        simp [addBook, addBookWithAuthor, hu, hfa, hal, htl]

/-- C1 witness: the amended theorem applied to the interesting concrete case,
an authenticated addBook with the fresh author Robert and a short title: the
title validation error is thrown, the new Author is persisted, and no Book or
User is. -/
theorem failingMutations_store_extent_witness :
    (addBook (some ⟨some ⟨1, "bob", "sf"⟩⟩) ⟨"abc", "Robert", 2008, ["x"]⟩
        ⟨[], [], [], 10⟩).2 = .error (.graphQLError
      "Book\x27s title should be at least 5 characters long."
      "BAD_USER_INPUT") ∧
    (addBook (some ⟨some ⟨1, "bob", "sf"⟩⟩) ⟨"abc", "Robert", 2008, ["x"]⟩
        ⟨[], [], [], 10⟩).1.authors = [⟨10, "Robert", none⟩] ∧
    (addBook (some ⟨some ⟨1, "bob", "sf"⟩⟩) ⟨"abc", "Robert", 2008, ["x"]⟩
        ⟨[], [], [], 10⟩).1.books = [] ∧
    (addBook (some ⟨some ⟨1, "bob", "sf"⟩⟩) ⟨"abc", "Robert", 2008, ["x"]⟩
        ⟨[], [], [], 10⟩).1.users = [] :=
  (failingMutations_store_extent (some ⟨some ⟨1, "bob", "sf"⟩⟩)
      ⟨[], [], [], 10⟩).2.2.2.2.2.2.2
    ⟨"abc", "Robert", 2008, ["x"]⟩ rfl rfl (by decide) (by decide)

/-- C4: allBooks filter semantics on a well-formed store, for filter arguments
that are absent or carry a usable (nonempty) value: with both filters it
returns exactly the populated Books whose author reference resolves to the
named Author and whose genre set contains the genre; with only an author
filter, the Books by that author; with only a genre filter, the Books
containing the genre; with neither, all Books; and every returned Book is
populated with a full Author record of the store. -/
theorem allBooks_filter_semantics (st : Store) (hwf : storeWf st) :
    (∀ a g, a ≠ "" → g ≠ "" →
      allBooks st ⟨some a, some g⟩ = (st.books.filter (fun b =>
        bookAuthorNamed st a b && bookHasGenre g b)).map (populateBook st)) ∧
    (∀ a, a ≠ "" →
      allBooks st ⟨some a, none⟩ =
        (st.books.filter (bookAuthorNamed st a)).map (populateBook st)) ∧
    (∀ g, g ≠ "" →
      allBooks st ⟨none, some g⟩ =
        (st.books.filter (bookHasGenre g)).map (populateBook st)) ∧
    allBooks st ⟨none, none⟩ = st.books.map (populateBook st) ∧
    (∀ args, ∀ pb ∈ allBooks st args, ∃ a ∈ st.authors, pb.author = some a) := by
  obtain ⟨hn, hi, hrefs⟩ := hwf
  refine ⟨?_, ?_, ?_, rfl, ?_⟩
  · intro a g ha hg
    simp [allBooks, jsTruthy, argStr, ha, hg,
      bookMatchesAuthor_findOne_eq st hn hi]
  · intro a ha
    have h1 : allBooks st ⟨some a, none⟩ =
        (st.books.filter (bookMatchesAuthor (authorFindOne st a))).map
          (populateBook st) := by
      simp [allBooks, jsTruthy, argStr, ha]
    rw [h1]
    exact congrArg _ (List.filter_congr
      (fun b _ => bookMatchesAuthor_findOne_eq st hn hi a b))
  · intro g hg
    simp [allBooks, jsTruthy, argStr, hg]
  · intro args pb hpb
    obtain ⟨b, hb, rfl⟩ := mem_allBooks st args pb hpb
    exact populateBook_resolves st hrefs b hb

/-- C4 witness: the theorem applied to a concrete one-author, one-book store
with both filters set. -/
theorem allBooks_filter_semantics_witness :
    allBooks ⟨[⟨0, "Ab C", none⟩], [⟨1, "Title", 2000, 0, ["g"]⟩], [], 2⟩
        ⟨some "Ab C", some "g"⟩ =
      ((⟨[⟨0, "Ab C", none⟩], [⟨1, "Title", 2000, 0, ["g"]⟩], [], 2⟩ :
          Store).books.filter (fun b =>
        bookAuthorNamed
          ⟨[⟨0, "Ab C", none⟩], [⟨1, "Title", 2000, 0, ["g"]⟩], [], 2⟩
          "Ab C" b && bookHasGenre "g" b)).map
        (populateBook
          ⟨[⟨0, "Ab C", none⟩], [⟨1, "Title", 2000, 0, ["g"]⟩], [], 2⟩) :=
  (allBooks_filter_semantics
      ⟨[⟨0, "Ab C", none⟩], [⟨1, "Title", 2000, 0, ["g"]⟩], [], 2⟩
      (by decide)).1 "Ab C" "g" (by decide) (by decide)

/-- C5: allAuthors returns one entry per stored Author, with shape id, name,
born and bookCount, where bookCount is the number of Books whose author
reference resolves to that author's name (on a well-formed store). -/
theorem allAuthors_bookCount_by_name (st : Store) (hwf : storeWf st) :
    allAuthors st = st.authors.map (fun a =>
      ⟨a.id, a.name, a.born,
        (st.books.filter (bookAuthorNamed st a.name)).length⟩) := by
  obtain ⟨hn, hi, -⟩ := hwf
  unfold allAuthors
  apply List.map_congr_left
  intro a ha
  have hfind : authorFindOne st a.name = some a :=
    find?_author_name_eq_some hn ha rfl
  have hpt : ∀ b : Book,
      bookMatchesAuthor (some a) b = bookAuthorNamed st a.name b := by
    intro b
    rw [← hfind, bookMatchesAuthor_findOne_eq st hn hi]
  simp only [hpt]

/-- C5 witness: the theorem applied to a concrete one-author, one-book store. -/
theorem allAuthors_bookCount_by_name_witness :
    allAuthors ⟨[⟨0, "Ab C", none⟩], [⟨1, "Title", 2000, 0, ["g"]⟩], [], 2⟩ =
      (⟨[⟨0, "Ab C", none⟩], [⟨1, "Title", 2000, 0, ["g"]⟩], [], 2⟩ :
          Store).authors.map (fun a =>
        ⟨a.id, a.name, a.born,
          ((⟨[⟨0, "Ab C", none⟩], [⟨1, "Title", 2000, 0, ["g"]⟩], [], 2⟩ :
              Store).books.filter
            (bookAuthorNamed
              ⟨[⟨0, "Ab C", none⟩], [⟨1, "Title", 2000, 0, ["g"]⟩], [], 2⟩
              a.name)).length⟩) :=
  allAuthors_bookCount_by_name
    ⟨[⟨0, "Ab C", none⟩], [⟨1, "Title", 2000, 0, ["g"]⟩], [], 2⟩ (by decide)

/-- C8: for an authenticated editAuthor call on a well-formed store: if no
stored Author has the given name, the call fails with the BAD_USER_INPUT
validation error and the store is unchanged; if a stored Author has the name,
its born field is set to setBornTo and persisted, every other record is
unchanged, and the updated Author is returned. -/
theorem editAuthor_semantics (c : Context) (u : User)
    (hc : c.currentUser = some u) (args : EditAuthorArgs) (st : Store)
    (hwf : storeWf st) :
    ((∀ a ∈ st.authors, a.name ≠ args.name) →
      (editAuthor (some c) args st).1 = st ∧
      (editAuthor (some c) args st).2 =
        .error (.graphQLError "The user does not exist." "BAD_USER_INPUT")) ∧
    (∀ a ∈ st.authors, a.name = args.name →
      (editAuthor (some c) args st).2 =
        .ok { a with born := some args.setBornTo } ∧
      (editAuthor (some c) args st).1.books = st.books ∧
      (editAuthor (some c) args st).1.users = st.users ∧
      (editAuthor (some c) args st).1.authors = st.authors.map (fun x =>
        if x.name = args.name then { x with born := some args.setBornTo }
        else x)) := by
  obtain ⟨hn, hi, -⟩ := hwf
  constructor
  · intro habs
    have hfa : authorFindOne st args.name = none := by
      show st.authors.find? (fun x => x.name = args.name) = none
      rw [List.find?_eq_none]
      intro x hx
      simp [habs x hx]
    simp [editAuthor, hc, hfa]
  · intro a ha hname
    have hfa : authorFindOne st args.name = some a :=
      find?_author_name_eq_some hn ha hname
    have h2 : editAuthor (some c) args st =
        ({ st with authors := st.authors.map (fun x =>
            if x.id = a.id then { a with born := some args.setBornTo } else x) },
         .ok { a with born := some args.setBornTo }) := by
      simp [editAuthor, hc, hfa]
    rw [h2]
    refine ⟨rfl, rfl, rfl, ?_⟩
    apply List.map_congr_left
    intro x hx
    by_cases hid : x.id = a.id
    · have hxa : x = a := List.inj_on_of_nodup_map hi hx ha (by rw [hid])
      subst hxa
      simp [hname]
    · have hxe : ¬(x.name = args.name) := fun hxn =>
        hid (congrArg Author.id
          (List.inj_on_of_nodup_map hn hx ha (by rw [hxn, hname])))
      simp [hid, hxe]

/-- C8 witness: a concrete authenticated call updating the stored author. -/
theorem editAuthor_semantics_witness :
    (editAuthor (some ⟨some ⟨1, "bob", "sf"⟩⟩) ⟨"Ab C", 1950⟩
        ⟨[⟨0, "Ab C", none⟩], [], [], 5⟩).2 = .ok ⟨0, "Ab C", some 1950⟩ ∧
    (editAuthor (some ⟨some ⟨1, "bob", "sf"⟩⟩) ⟨"Ab C", 1950⟩
        ⟨[⟨0, "Ab C", none⟩], [], [], 5⟩).1.books = [] ∧
    (editAuthor (some ⟨some ⟨1, "bob", "sf"⟩⟩) ⟨"Ab C", 1950⟩
        ⟨[⟨0, "Ab C", none⟩], [], [], 5⟩).1.users = [] ∧
    (editAuthor (some ⟨some ⟨1, "bob", "sf"⟩⟩) ⟨"Ab C", 1950⟩
        ⟨[⟨0, "Ab C", none⟩], [], [], 5⟩).1.authors =
      ([⟨0, "Ab C", none⟩] : List Author).map (fun x =>
        if x.name = "Ab C" then { x with born := some (1950 : Int) } else x) :=
  (editAuthor_semantics ⟨some ⟨1, "bob", "sf"⟩⟩ ⟨1, "bob", "sf"⟩ rfl
      ⟨"Ab C", 1950⟩ ⟨[⟨0, "Ab C", none⟩], [], [], 5⟩ (by decide)).2
    ⟨0, "Ab C", none⟩ (by decide) rfl
